import Mathlib

/-!
Shallow embedding of the distributed-coordination core of trsvcscore
(service registrar, failover RPC proxy, consistent service hashring)
together with proofs checking the natural-language specification
against the code.

Conventions of the embedding:
* Python exceptions are the `PyExc` inductive; fallible code returns
  `Except PyExc _`.
* JSON-compatible Python values are the `Json` inductive.  A Python
  string that holds the `json.dumps` encoding of a value `j` is
  modelled as `PyData.jstr j`; any other Python value `j` handed to a
  deserializer is `PyData.jval j`.  This models the standard-library
  facts that `json.loads (json.dumps v) = v` for JSON-compatible `v`
  and that `json.loads` raises `TypeError` on a non-string argument,
  without embedding a concrete text parser.
* Zookeeper is modelled as an explicit node store (`ZkClient`); paths
  are component lists, mirroring `os.path.join` chains in the source.
* `random.choice(l)` is modelled as `pyChoice l r` for an oracle index
  `r`; for non-empty `l` it returns a member of `l`.
-/

/-- Python exception kinds appearing in the modelled code paths. -/
inductive PyExc where
  | typeError
  | attributeError
  | keyError
  | nameError
  | runtimeError
  | zkNodeExists
  | zkNoNode
  | zkNetworkError
  | serviceProxy (msg : String)
  | serviceHashring (msg : String)
  | native (code : Nat)
  deriving Repr, DecidableEq

/-- JSON-compatible Python values. -/
inductive Json where
  | null
  | bool (b : Bool)
  | int (i : Int)
  | str (s : String)
  | arr (items : List Json)
  | obj (fields : List (String × Json))

/-- A Python value handed to a deserializer: either a `str` holding the
`json.dumps` encoding of a value, or a non-string value (dict, list,
number, ...). -/
inductive PyData where
  | jstr (encoded : Json)
  | jval (value : Json)

/-- json.loads: parses a string, raises TypeError on a non-string
argument ("expected string or buffer"). -/
def json_loads : PyData → Except PyExc Json
  | .jstr j => .ok j
  | .jval _ => .error .typeError

/-- The dual-accept pattern of `ServiceInfo.from_json` and friends:
`if isinstance(data, basestring): json.loads(data) else: data`. -/
def py_str_or_dict : PyData → Json
  | .jstr j => j
  | .jval j => j

/-- Subscript `json_dict[k]` on a dict: KeyError when absent.  (On a
non-dict Python raises a TypeError; `asObj` models that.) -/
def jlookup (fields : List (String × Json)) (k : String) : Except PyExc Json :=
  match fields.find? (fun kv => kv.1 == k) with
  | some kv => .ok kv.2
  | none => .error .keyError

def asObj : Json → Except PyExc (List (String × Json))
  | .obj l => .ok l
  | _ => .error .typeError

def asArr : Json → Except PyExc (List Json)
  | .arr l => .ok l
  | _ => .error .typeError

/- Field extraction below is shape-checked so that the embedded records
can carry typed fields; Python itself stores the looked-up values
without validation.  Every theorem in this file applies the
deserializers only to `to_json` images, where the shapes hold. -/

def asStr : Json → Except PyExc String
  | .str s => .ok s
  | _ => .error .typeError

def asInt : Json → Except PyExc Int
  | .int i => .ok i
  | _ => .error .typeError

/-- trsvcscore/service/server/base.py: ServerEndpoint(address, port,
protocol, transport). -/
structure ServerEndpoint where
  address : String
  port : Int
  protocol : String
  transport : String

/-- trsvcscore/service/server/base.py: ServerInfo(name, endpoints);
the constructor replaces a falsy endpoints argument by []. -/
structure ServerInfo where
  name : String
  endpoints : List ServerEndpoint

/-- trsvcscore/service/base.py: ServiceInfo(name, version, build,
hostname, fqdn, key, servers). -/
structure ServiceInfo where
  name : String
  version : String
  build : String
  hostname : String
  fqdn : String
  key : String
  servers : List ServerInfo

def ServerEndpoint.to_json (e : ServerEndpoint) : Json :=
  .obj [("address", .str e.address), ("port", .int e.port),
        ("protocol", .str e.protocol), ("transport", .str e.transport)]

def ServerInfo.to_json (s : ServerInfo) : Json :=
  .obj [("name", .str s.name), ("endpoints", .arr (s.endpoints.map ServerEndpoint.to_json))]

def ServiceInfo.to_json (i : ServiceInfo) : Json :=
  .obj [("name", .str i.name), ("version", .str i.version), ("build", .str i.build),
        ("hostname", .str i.hostname), ("fqdn", .str i.fqdn), ("key", .str i.key),
        ("servers", .arr (i.servers.map ServerInfo.to_json))]

def ServerEndpoint.from_json (data : PyData) : Except PyExc ServerEndpoint := do
  let d ← asObj (py_str_or_dict data)
  let address ← asStr (← jlookup d "address")
  let port ← asInt (← jlookup d "port")
  let protocol ← asStr (← jlookup d "protocol")
  let transport ← asStr (← jlookup d "transport")
  pure ⟨address, port, protocol, transport⟩

/-- The `for json_endpoint in json_dict["endpoints"]` accumulation:
an exception from any element propagates. -/
def collect_endpoints : List Json → Except PyExc (List ServerEndpoint)
  | [] => .ok []
  | j :: rest => do
      let e ← ServerEndpoint.from_json (.jval j)
      let others ← collect_endpoints rest
      pure (e :: others)

def ServerInfo.from_json (data : PyData) : Except PyExc ServerInfo := do
  let d ← asObj (py_str_or_dict data)
  let eps ← asArr (← jlookup d "endpoints")
  let endpoints ← collect_endpoints eps
  let name ← asStr (← jlookup d "name")
  pure ⟨name, endpoints⟩

/-- The `[ServerInfo.from_json(s) for s in json_dict["servers"]]`
comprehension. -/
def collect_servers : List Json → Except PyExc (List ServerInfo)
  | [] => .ok []
  | j :: rest => do
      let s ← ServerInfo.from_json (.jval j)
      let others ← collect_servers rest
      pure (s :: others)

def ServiceInfo.from_json (data : PyData) : Except PyExc ServiceInfo := do
  let d ← asObj (py_str_or_dict data)
  let srv ← asArr (← jlookup d "servers")
  let servers ← collect_servers srv
  let name ← asStr (← jlookup d "name")
  let version ← asStr (← jlookup d "version")
  let build ← asStr (← jlookup d "build")
  let hostname ← asStr (← jlookup d "hostname")
  let fqdn ← asStr (← jlookup d "fqdn")
  let key ← asStr (← jlookup d "key")
  pure ⟨name, version, build, hostname, fqdn, key, servers⟩

/-- trsvcscore/registrar/base.py: ServiceRegistration record. -/
structure ServiceRegistration where
  name : String
  port : Int
  hostname : String
  fqdn : String

/-- Python `x or default` applied to an optional / possibly empty
string argument (None and the empty string are falsy). -/
def pyOrDefault : Option String → String → String
  | some s, d => if s = "" then d else s
  | none, d => d

/-- ServiceRegistration.__init__: hostname and fqdn default to
socket.gethostname() / socket.getfqdn(), passed here as the ambient
local identity. -/
def ServiceRegistration.construct (service_name : String) (service_port : Int)
    (hostname fqdn : Option String) (local_hostname local_fqdn : String) :
    ServiceRegistration :=
  ⟨service_name, service_port, pyOrDefault hostname local_hostname,
   pyOrDefault fqdn local_fqdn⟩

def ServiceRegistration.to_json (r : ServiceRegistration) : Json :=
  .obj [("name", .str r.name), ("port", .int r.port),
        ("hostname", .str r.hostname), ("fqdn", .str r.fqdn)]

/-- ServiceRegistration.from_json applies json.loads unconditionally:
unlike ServiceInfo.from_json it has no isinstance branch, so a
non-string argument raises TypeError. -/
def ServiceRegistration.from_json (local_hostname local_fqdn : String)
    (data : PyData) : Except PyExc ServiceRegistration := do
  let j ← json_loads data
  let d ← asObj j
  let name ← asStr (← jlookup d "name")
  let port ← asInt (← jlookup d "port")
  let hostname ← asStr (← jlookup d "hostname")
  let fqdn ← asStr (← jlookup d "fqdn")
  pure (ServiceRegistration.construct name port (some hostname) (some fqdn)
        local_hostname local_fqdn)

/-! ## Zookeeper client model (node store used by the registrar) -/

/-- A coordinator path, one component per os.path.join argument. -/
abbrev ZkPath := List String

/-- Explicit-state model of the zookeeper client as seen by
trsvcscore/registrar/zoo.py: a connection flag, a fault-injection flag
(`netfail` makes every network operation raise), and the node store in
creation order. -/
structure ZkClient where
  connected : Bool
  netfail : Bool
  nodes : List (ZkPath × PyData)

/-- create_path(node, data, sequence=False, ephemeral=True): raises
NodeExistsException when the node is present. -/
def zk_create_path (c : ZkClient) (p : ZkPath) (d : PyData) : Except PyExc ZkClient :=
  if c.netfail then .error .zkNetworkError
  else if c.nodes.any (fun nd => nd.1 == p) then .error .zkNodeExists
  else .ok { c with nodes := c.nodes ++ [(p, d)] }

/-- delete(node): raises NoNodeException when the node is absent. -/
def zk_delete (c : ZkClient) (p : ZkPath) : Except PyExc ZkClient :=
  if c.netfail then .error .zkNetworkError
  else if c.nodes.any (fun nd => nd.1 == p) then
    .ok { c with nodes := c.nodes.filter (fun nd => !(nd.1 == p)) }
  else .error .zkNoNode

/-- Name of the child when `q` is a direct child path of `p`. -/
def zk_child_of : ZkPath → ZkPath → Option String
  | [], [c] => some c
  | a :: ps, b :: qs => if a == b then zk_child_of ps qs else none
  | _, _ => none

/-- get_children(path); a missing parent raises NoNodeException in
zookeeper, which every caller in the registrar catches in the same
`except Exception` block as an empty result path, so the model returns
the (possibly empty) list of children. -/
def zk_get_children (c : ZkClient) (p : ZkPath) : Except PyExc (List String) :=
  if c.netfail then .error .zkNetworkError
  else .ok (c.nodes.filterMap (fun nd => zk_child_of p nd.1))

/-- get_data(path) (the stat component is not modelled). -/
def zk_get_data (c : ZkClient) (p : ZkPath) : Except PyExc PyData :=
  if c.netfail then .error .zkNetworkError
  else
    match c.nodes.find? (fun nd => nd.1 == p) with
    | some nd => .ok nd.2
    | none => .error .zkNoNode

/-! ## ZookeeperServiceRegistrar (trsvcscore/registrar/zoo.py)

A Service object is modelled by the ServiceInfo returned by its
`info()` method (the registrar reads nothing else from it). -/

/-- Registrar state: the client, the registration retry queue (FIFO),
and the registered_services map in insertion order. -/
structure Registrar where
  client : ZkClient
  queue : List ServiceInfo
  registered : List (ZkPath × ServiceInfo)

/-- _service_node_path: /services/<name>/registry/<name>_<key>. -/
def service_node_path (info : ServiceInfo) : ZkPath :=
  ["services", info.name, "registry", String.append (String.append info.name "_") info.key]

/-- Insert or overwrite a key in the registered_services map. -/
def assocSet (l : List (ZkPath × ServiceInfo)) (k : ZkPath) (v : ServiceInfo) :
    List (ZkPath × ServiceInfo) :=
  if l.any (fun kv => kv.1 == k) then
    l.map (fun kv => if kv.1 == k then (k, v) else kv)
  else l ++ [(k, v)]

/-- _register (zoo.py lines 72-102): raises RuntimeError when the
client is not connected; creates the ephemeral registration node with
the json.dumps of the ServiceInfo; a NodeExistsException is caught and
logged ("already registered"), leaving registered_services untouched;
any other error propagates to the caller. -/
def registrar_register (r : Registrar) (svc : ServiceInfo) : Except PyExc Registrar :=
  if !r.client.connected then .error .runtimeError
  else
    match zk_create_path r.client (service_node_path svc) (.jstr (ServiceInfo.to_json svc)) with
    | .ok c =>
        .ok { r with client := c,
                     registered := assocSet r.registered (service_node_path svc) svc }
    | .error .zkNodeExists => .ok r
    | .error e => .error e

/-- register_service (zoo.py lines 104-125): returns True on success;
every exception is caught, the service is put on the registration
queue, and False is returned (the method itself never raises). -/
def register_service (r : Registrar) (svc : ServiceInfo) : Bool × Registrar :=
  match registrar_register r svc with
  | .ok r2 => (true, r2)
  | .error _ => (false, { r with queue := r.queue ++ [svc] })

/-- unregister_service (zoo.py lines 127-152).  `result` starts False
and the source sets it to True only in the NoNodeException branch: a
delete that actually succeeds leaves `result` False.  The node is
always removed from registered_services at the end. -/
def unregister_service (r : Registrar) (svc : ServiceInfo) : Bool × Registrar :=
  let p := service_node_path svc
  let step : Bool × ZkClient :=
    match zk_delete r.client p with
    | .ok c2 => (false, c2)
    | .error .zkNoNode => (true, r.client)
    | .error _ => (false, r.client)
  (step.1, { r with client := step.2,
                    registered := r.registered.filter (fun kv => !(kv.1 == p)) })

/-- random.choice(l) with the random draw supplied as an oracle index;
for non-empty `l` the result is a member of `l`. -/
def pyChoice {α : Type} (l : List α) (r : Nat) : Option α :=
  l.get? (r % l.length)

/-- Deserialization loop shared by locate_service and friends: builds
the list of ServiceInfo for every child, propagating any exception. -/
def collect_service_infos (c : ZkClient) (base : ZkPath) :
    List String → Except PyExc (List ServiceInfo)
  | [] => .ok []
  | ch :: rest => do
      let d ← zk_get_data c (base ++ [ch])
      let info ← ServiceInfo.from_json d
      let others ← collect_service_infos c base rest
      pure (info :: others)

/-- locate_service (zoo.py lines 154-190): any exception inside the
try block is caught and the initial `result = None` is returned; with
host_affinity a random same-host registration is preferred, otherwise
(`result = result or random.choice(services)`) a random registration
overall. -/
def locate_service (r : Registrar) (local_hostname name : String)
    (host_affinity : Bool) (r1 r2 : Nat) : Option ServiceInfo :=
  let base : ZkPath := ["services", name, "registry"]
  match (do
      let children ← zk_get_children r.client base
      collect_service_infos r.client base children : Except PyExc (List ServiceInfo)) with
  | .error _ => none
  | .ok services =>
      if services.isEmpty then none
      else
        let affinity_result : Option ServiceInfo :=
          if host_affinity then
            let host_services := services.filter (fun s => s.hostname == local_hostname)
            if host_services.isEmpty then none else pyChoice host_services r1
          else none
        match affinity_result with
        | some s => some s
        | none => pyChoice services r2

/-- find_services (zoo.py lines 239-259): appends deserialized
registrations until the first failure; the `except` clause returns
whatever was accumulated so far. -/
def find_collect (c : ZkClient) (base : ZkPath) : List String → List ServiceInfo
  | [] => []
  | ch :: rest =>
      match zk_get_data c (base ++ [ch]) with
      | .error _ => []
      | .ok d =>
          match ServiceInfo.from_json d with
          | .error _ => []
          | .ok info => info :: find_collect c base rest

def find_services (r : Registrar) (name : String) : List ServiceInfo :=
  let base : ZkPath := ["services", name, "registry"]
  match zk_get_children r.client base with
  | .error _ => []
  | .ok children => find_collect r.client base children

/-- Path-keyed variant of the deserialization loop, for the
locate_zookeeper_service dict `{path: ServiceInfo}` (insertion
order). -/
def collect_service_pairs (c : ZkClient) (base : ZkPath) :
    List String → Except PyExc (List (ZkPath × ServiceInfo))
  | [] => .ok []
  | ch :: rest => do
      let d ← zk_get_data c (base ++ [ch])
      let info ← ServiceInfo.from_json d
      let others ← collect_service_pairs c base rest
      pure ((base ++ [ch], info) :: others)

/-- Dict subscript services[service_path]. -/
def assocFind (l : List (ZkPath × ServiceInfo)) (p : ZkPath) : Option ServiceInfo :=
  match l.find? (fun kv => kv.1 == p) with
  | some kv => some kv.2
  | none => none

/-- locate_zookeeper_service (zoo.py lines 192-237): like
locate_service but keeps the node path; the fallback runs when
`result[0] is None` and draws from services.keys(). -/
def zoo_locate_zookeeper_service (r : Registrar) (local_hostname name : String)
    (host_affinity : Bool) (r1 r2 : Nat) : Option ZkPath × Option ServiceInfo :=
  let base : ZkPath := ["services", name, "registry"]
  match (do
      let children ← zk_get_children r.client base
      collect_service_pairs r.client base children :
      Except PyExc (List (ZkPath × ServiceInfo))) with
  | .error _ => (none, none)
  | .ok services =>
      if services.isEmpty then (none, none)
      else
        let affinity_result : Option ZkPath × Option ServiceInfo :=
          if host_affinity then
            let host_services := services.filter (fun kv => kv.2.hostname == local_hostname)
            if host_services.isEmpty then (none, none)
            else
              match pyChoice (host_services.map (fun kv => kv.1)) r1 with
              | some p => (some p, assocFind services p)
              | none => (none, none)
          else (none, none)
        match affinity_result with
        | (some p, s) => (some p, s)
        | (none, _) =>
            match pyChoice (services.map (fun kv => kv.1)) r2 with
            | some p => (some p, assocFind services p)
            | none => (none, none)

/-- The Python local `result` of the older
registrar/zookeeper.py locate_zookeeper_service: it is initialized to
the tuple (None, None) and only ever reassigned to tuples, yet the
fallback guard tests `result is None`. -/
inductive PyTupOrNone where
  | pynone
  | tup (node : Option ZkPath) (info : Option ServiceInfo)

/-- locate_zookeeper_service (registrar/zookeeper.py lines 156-201).
`result = (None, None)`; the affinity branch may reassign it; the
fallback is guarded by `if result is None:` which is always False for
a tuple, so it never runs (and its body reads host_services, which is
unbound when host_affinity is False). -/
def zkv_locate_zookeeper_service (c : ZkClient) (local_hostname name : String)
    (host_affinity : Bool) (r1 : Nat) : PyTupOrNone :=
  let base : ZkPath := ["services", name, "registry"]
  match (do
      let children ← zk_get_children c base
      collect_service_pairs c base children :
      Except PyExc (List (ZkPath × ServiceInfo))) with
  | .error _ => .tup none none
  | .ok services =>
      if services.isEmpty then .tup none none
      else
        let result : PyTupOrNone :=
          if host_affinity then
            let host_services := services.filter (fun kv => kv.2.hostname == local_hostname)
            if host_services.isEmpty then .tup none none
            else
              match pyChoice (host_services.map (fun kv => kv.1)) r1 with
              | some p => .tup (some p) (assocFind services p)
              | none => .tup none none
          else .tup none none
        match result with
        | .pynone =>
            -- `if result is None:` — unreachable: result always holds a tuple here,
            -- so the random fallback of the source (lines 194-196) is dead code.
            .tup none none
        | .tup a b => .tup a b

/-! ## Registrar session observer (zoo.py lines 40-62) -/

/-- Zookeeper session states tested by the observer; every state other
than CONNECTED_STATE and EXPIRED_SESSION_STATE falls through both
branches. -/
inductive ZkSessionState where
  | connectedState
  | expiredSessionState
  | connectingState
  | associatingState
  | authFailedState

/-- The `while not self.registration_queue.empty()` drain: each entry
is taken off the queue and _register is tried once; a failure is
logged and the entry dropped.  The second component records, in order,
every service for which a retry was attempted. -/
def drain_registration_queue : List ServiceInfo → Registrar → Registrar × List ServiceInfo
  | [], r => (r, [])
  | svc :: rest, r =>
      let r2 :=
        match registrar_register r svc with
        | .ok rr => rr
        | .error _ => r
      let res := drain_registration_queue rest r2
      (res.1, svc :: res.2)

/-- _session_observer: on CONNECTED_STATE drain the registration
queue; on EXPIRED_SESSION_STATE re-queue every registered service; any
other state leaves the registrar untouched.  The returned list is the
retry log of the drain. -/
def session_observer (r : Registrar) (st : ZkSessionState) : Registrar × List ServiceInfo :=
  match st with
  | .connectedState => drain_registration_queue r.queue { r with queue := [] }
  | .expiredSessionState =>
      ({ r with queue := r.queue ++ r.registered.map (fun kv => kv.2) }, [])
  | _ => (r, [])

/-! ## ZookeeperServiceProxy (trsvcscore/proxy/zookeeper.py)

The six service slots of the proxy; service client objects and
transports are opaque and carried as numeric identities.  The lock of
the source (threading.Lock or the NoOpLock) guards the staged slots;
the embedding is a sequential step semantics, so each step below is
one critical section. -/

structure ProxyState where
  service : Option Nat
  service_node : Option String
  service_transport : Option Nat
  staged_service : Option Nat
  staged_service_node : Option String
  staged_service_transport : Option Nat

/-- Result of _create_service: (node, service, transport), all None
when no instance with a thrift/tcp endpoint is available. -/
structure FreshService where
  node : Option String
  service : Option Nat
  transport : Option Nat

/-- Python `x not in children` for the optional node names; `None not
in [...]` is True. -/
def opt_mem (o : Option String) (children : List String) : Bool :=
  match o with
  | some s => children.contains s
  | none => false

/-- _watch (proxy/zookeeper.py lines 146-167): when neither the active
nor the staged node is among the registry children, the freshly
resolved replacement is written into the three staged slots (under the
lock); the active slots are never touched. -/
def proxy_watch (st : ProxyState) (children : List String) (fresh : FreshService) :
    ProxyState :=
  if !(opt_mem st.service_node children) && !(opt_mem st.staged_service_node children) then
    { st with staged_service_node := fresh.node,
              staged_service := fresh.service,
              staged_service_transport := fresh.transport }
  else st

/-- The swap at the top of __getattr__ (lines 236-248): when a staged
service object is present (`if self.staged_service:`), all three
staged slots move into the active slots and are reset to None. -/
def proxy_swap (st : ProxyState) : ProxyState :=
  match st.staged_service with
  | some _ =>
      { service := st.staged_service,
        service_node := st.staged_service_node,
        service_transport := st.staged_service_transport,
        staged_service := none,
        staged_service_node := none,
        staged_service_transport := none }
  | none => st

/-- __getattr__ up to the attribute fetch (lines 236-252): swap in any
staged service, then raise ServiceProxyException("service unavailable")
when no service object is bound.  No transport operation occurs on the
error path (the returned state and outcome are computed from the slots
alone). -/
def proxy_getattr_gate (st : ProxyState) : ProxyState × Except PyExc Unit :=
  let st2 := proxy_swap st
  if st2.service.isNone then
    (st2, .error (.serviceProxy "service unavailable"))
  else (st2, .ok ())

/-- Outcomes of the transport primitives used by one invocation of a
wrapped service method: isOpen/open before the call, the forwarded
method call itself, and isOpen/close in the finally block.  An `error`
models the primitive raising the transport's native exception. -/
structure CallEnv where
  isOpenPre : Except PyExc Bool
  openRes : Except PyExc Unit
  callRes : Except PyExc Nat
  isOpenPost : Except PyExc Bool
  closeRes : Except PyExc Unit

/-- The try block of the method wrapper (lines 207-210): open the
transport if it is closed, then forward the call. -/
def wrapper_try (env : CallEnv) : Except PyExc Nat :=
  match env.isOpenPre with
  | .error e => .error e
  | .ok o =>
      if o then env.callRes
      else
        match env.openRes with
        | .error e => .error e
        | .ok _ => env.callRes

/-- try plus the except clause (lines 211-213): any exception is
logged and replaced by ServiceProxyException("service unavailable"). -/
def wrapper_except (env : CallEnv) : Except PyExc Nat :=
  match wrapper_try env with
  | .ok v => .ok v
  | .error _ => .error (.serviceProxy "service unavailable")

/-- The finally clause (lines 214-216): when keepalive is off, close
the transport if it is open. -/
def wrapper_finally (keepalive : Bool) (env : CallEnv) : Except PyExc Unit :=
  if keepalive then .ok ()
  else
    match env.isOpenPost with
    | .error e => .error e
    | .ok o => if o then env.closeRes else .ok ()

/-- One invocation of the wrapper produced by
_get_service_method_wrapper: Python runs the finally clause after the
try/except outcome is determined, and an exception raised inside the
finally clause replaces that outcome. -/
def service_method_wrapper (keepalive : Bool) (env : CallEnv) : Except PyExc Nat :=
  match wrapper_finally keepalive env with
  | .error e => .error e
  | .ok _ => wrapper_except env

/-! ## ZookeeperServiceHashring (trsvcscore/hashring/zookeeper.py) -/

/-- trpycore HashringNode as stored by the watch: the ring position
token and the JSON string payload of the position. -/
structure WatchNode where
  token : Nat
  data : PyData

def insert_node (n : WatchNode) : List WatchNode → List WatchNode
  | [] => [n]
  | m :: rest =>
      if n.token ≤ m.token then n :: m :: rest else m :: insert_node n rest

def sort_nodes : List WatchNode → List WatchNode
  | [] => []
  | n :: rest => insert_node n (sort_nodes rest)

/-- Modelled from the spec: trpycore's HashringWatch.preference_list
(GHashringWatch/HashringWatch) is not part of this repository.  Per
spec 4.1 the key is hashed to a position p and the ring is walked
clockwise starting at the first node whose token exceeds p, wrapping
around, for one full revolution.  The digest is abstracted as the
`hash` parameter. -/
def watch_preference_list (hash : String → Nat) (ring : List WatchNode)
    (data : String) : List WatchNode :=
  let sorted := sort_nodes ring
  let p := hash data
  sorted.filter (fun n => decide (p < n.token)) ++
    sorted.filter (fun n => !(decide (p < n.token)))

/-- trsvcscore/hashring/base.py ServiceHashringNode: fields token,
service_info, data (lines 20-22). -/
structure ServiceHashringNodeRec where
  token : Nat
  service_info : ServiceInfo
  data : Json

/-- The ServiceHashringNode constructor call: token and service_info
are required positional parameters (base.py line 9); omitting either
raises TypeError; `data or {}` defaults a falsy data argument. -/
def mk_service_hashring_node (token : Option Nat) (service_info : Option ServiceInfo)
    (data : Option Json) : Except PyExc ServiceHashringNodeRec :=
  match token, service_info with
  | some t, some si =>
      .ok ⟨t, si, match data with | some d => d | none => Json.obj []⟩
  | _, _ => .error .typeError

/-- _convert_hashring_nodes (zookeeper.py lines 206-217): each watch
node is turned into ServiceHashringNode(token=node.token,
data=json.loads(node.data)) — the required service_info argument is
not passed, so the constructor raises TypeError for every node. -/
def convert_hashring_nodes : List WatchNode → Except PyExc (List ServiceHashringNodeRec)
  | [] => .ok []
  | n :: rest => do
      let d ← json_loads n.data
      let sn ← mk_service_hashring_node (some n.token) none (some d)
      let others ← convert_hashring_nodes rest
      pure (sn :: others)

/-- Attribute lookup node.service_key: ServiceHashringNode defines
only token, service_info and data, so the lookup raises
AttributeError. -/
def snode_service_key (_ : ServiceHashringNodeRec) : Except PyExc String :=
  .error .attributeError

/-- Attribute lookup node.hostname: same missing attribute. -/
def snode_hostname (_ : ServiceHashringNodeRec) : Except PyExc String :=
  .error .attributeError

/-- The deduplication loop of preference_list (zookeeper.py lines
172-182): keep a node only when its service_key is new and (under
merge_nodes) its hostname is new; both dicts are updated only when the
node is appended. -/
def dedup_preference_list (merge_nodes : Bool) :
    List ServiceHashringNodeRec → List String → List String →
    Except PyExc (List ServiceHashringNodeRec)
  | [], _, _ => .ok []
  | n :: rest, keys, hostnames => do
      let k ← snode_service_key n
      if keys.contains k then dedup_preference_list merge_nodes rest keys hostnames
      else do
        let h ← snode_hostname n
        if !(hostnames.contains h) || !merge_nodes then do
          let others ← dedup_preference_list merge_nodes rest (k :: keys) (h :: hostnames)
          pure (n :: others)
        else dedup_preference_list merge_nodes rest keys hostnames

/-- preference_list (zookeeper.py lines 130-182) with the hashring
argument left at its default None (the current watch snapshot `ring`
is used).  The data parameter has no default: a call that does not
supply it raises TypeError at call time, modelled by the `none`
case. -/
def zsh_preference_list (hash : String → Nat) (ring : List WatchNode)
    (data : Option String) (merge_nodes : Bool) :
    Except PyExc (List ServiceHashringNodeRec) :=
  match data with
  | none => .error .typeError
  | some d => do
      let nodes ← convert_hashring_nodes (watch_preference_list hash ring d)
      dedup_preference_list merge_nodes nodes [] []

/-- find_hashring_node (zookeeper.py lines 184-204): line 200 reads
`nodes = self.preference_list()` — the data argument the caller
supplied is not forwarded, so the call carries no key. -/
def find_hashring_node (hash : String → Nat) (ring : List WatchNode)
    (_data : String) : Except PyExc ServiceHashringNodeRec :=
  match zsh_preference_list hash ring none true with
  | .error e => .error e
  | .ok (n :: _) => .ok n
  | .ok [] => .error (.serviceHashring "no services available (empty hashring)")

/-! ## ZookeeperServiceHashring construction (C10) -/

/-- Parameters of ServiceHashring.__init__ (hashring/base.py line
111), self excluded. -/
def service_hashring_init_params : List String :=
  ["service_name", "service", "positions", "position_data"]

/-- Keyword arguments of the super().__init__ call in
ZookeeperServiceHashring.__init__ (hashring/zookeeper.py lines
57-61). -/
def zookeeper_hashring_super_kwargs : List String :=
  ["service_name", "service_port", "positions", "position_data"]

/-- State assigned by ServiceHashring.__init__ when the call binds. -/
structure ServiceHashringBase where
  service_name : String
  service : Option ServiceInfo
  positions : Option (List Nat)
  position_data : Json

/-- ZookeeperServiceHashring.__init__ up to and including its first
statement, the super().__init__ call: Python binds the keyword
arguments against the base signature before executing anything, and an
unexpected keyword raises TypeError, so no attribute of the instance
is ever assigned. -/
def zookeeper_service_hashring_init (service_name : String) (_service_port : Option Int)
    (positions : Option (List Nat)) (position_data : Option Json) :
    Except PyExc ServiceHashringBase :=
  if zookeeper_hashring_super_kwargs.all
      (fun k => service_hashring_init_params.contains k) then
    -- Unreachable: service_port is not a parameter of ServiceHashring.__init__.
    .ok ⟨service_name, none, positions,
         match position_data with | some d => d | none => Json.obj []⟩
  else .error .typeError

/-! ## Serialization round-trip lemmas (C8) -/

theorem server_endpoint_roundtrip (e : ServerEndpoint) :
    ServerEndpoint.from_json (.jval e.to_json) = .ok e := by
  cases e
  rfl

theorem collect_endpoints_map (l : List ServerEndpoint) :
    collect_endpoints (l.map ServerEndpoint.to_json) = .ok l := by
  induction l with
  | nil => rfl
  | cons e rest ih =>
      simp [collect_endpoints, server_endpoint_roundtrip e, ih, bind, Except.bind, pure, Except.pure]

theorem server_info_roundtrip (s : ServerInfo) :
    ServerInfo.from_json (.jval s.to_json) = .ok s := by
  cases s with
  | mk name endpoints =>
      simp [ServerInfo.from_json, ServerInfo.to_json, py_str_or_dict, asObj,
            jlookup, List.find?, asArr, asStr, collect_endpoints_map,
            bind, Except.bind, Functor.map, Except.map, pure, Except.pure]

theorem collect_servers_map (l : List ServerInfo) :
    collect_servers (l.map ServerInfo.to_json) = .ok l := by
  induction l with
  | nil => rfl
  | cons s rest ih =>
      simp [collect_servers, server_info_roundtrip s, ih, bind, Except.bind, pure, Except.pure]

theorem service_info_roundtrip (i : ServiceInfo) :
    ServiceInfo.from_json (.jval i.to_json) = .ok i := by
  cases i with
  | mk name version build hostname fqdn key servers =>
      simp [ServiceInfo.from_json, ServiceInfo.to_json, py_str_or_dict, asObj,
            jlookup, List.find?, asArr, asStr, collect_servers_map,
            bind, Except.bind, Functor.map, Except.map, pure, Except.pure]

theorem pyOrDefault_stable (h : Option String) (d : String) :
    pyOrDefault (some (pyOrDefault h d)) d = pyOrDefault h d := by
  cases h with
  | none =>
      simp [pyOrDefault]
  | some s =>
      by_cases hs : s = ""
      · simp [pyOrDefault, hs]
      · simp [pyOrDefault, hs]

theorem service_registration_roundtrip (n : String) (p : Int) (h f : Option String)
    (lh lf : String) :
    ServiceRegistration.from_json lh lf
      (.jstr (ServiceRegistration.construct n p h f lh lf).to_json)
      = .ok (ServiceRegistration.construct n p h f lh lf) := by
  simp [ServiceRegistration.from_json, ServiceRegistration.to_json, json_loads,
        asObj, jlookup, List.find?, asStr, asInt, ServiceRegistration.construct,
        pyOrDefault_stable, bind, Except.bind, Functor.map, Except.map, pure, Except.pure]

/-! ## Claim C8 -/

/-- A concretely constructed ServiceRegistration. -/
def c8_reg : ServiceRegistration :=
  ServiceRegistration.construct "chatsvc" 9090 (some "host1") (some "host1.example.com")
    "localhost" "localhost.localdomain"

/-- C8 counterexample: for the concretely constructed ServiceRegistration
`c8_reg`, the direct composition from_json(to_json(x)) does not succeed:
to_json returns a dict and ServiceRegistration.from_json feeds its
argument to json.loads, which raises TypeError on a non-string. -/
theorem c8_registration_direct_roundtrip_fails :
    ServiceRegistration.from_json "localhost" "localhost.localdomain"
      (.jval c8_reg.to_json) = .error .typeError := rfl

/-- C8 (amended): for every constructed ServiceInfo the direct
composition from_json(to_json(x)) succeeds and reproduces every field;
for every constructed ServiceRegistration the composition through the
JSON string encoding, from_json(json.dumps(to_json(x))), succeeds and
reproduces every field, while the direct composition from_json(to_json(x))
raises TypeError because ServiceRegistration.from_json json.loads its
argument, which must be a string. -/
theorem c8_serialization_roundtrip_amended :
    ∀ (info : ServiceInfo) (n : String) (p : Int) (h f : Option String)
      (lh lf : String) (reg : ServiceRegistration),
      ServiceInfo.from_json (.jval info.to_json) = .ok info
      ∧ ServiceRegistration.from_json lh lf
          (.jstr (ServiceRegistration.construct n p h f lh lf).to_json)
          = .ok (ServiceRegistration.construct n p h f lh lf)
      ∧ ServiceRegistration.from_json lh lf (.jval reg.to_json)
          = .error .typeError := by
  intro info n p h f lh lf reg
  refine ⟨service_info_roundtrip info, service_registration_roundtrip n p h f lh lf, ?_⟩
  cases reg
  rfl

/-! ## Claim C1 -/

/-- C1: find_hashring_node raises TypeError on every input — even on
the empty hashring, where the claim expects ServiceHashringException —
because line 200 invokes preference_list() without forwarding the data
key, and preference_list's data parameter has no default. -/
theorem c1_find_hashring_node_always_type_error :
    ∀ (hash : String → Nat) (ring : List WatchNode) (data : String),
      find_hashring_node hash ring data = .error .typeError := by
  intro hash ring data
  rfl

/-! ## Claim C9 -/

/-- A one-position ring whose occupant stores an empty data dict. -/
def c9_ring : List WatchNode := [⟨5, .jstr (Json.obj [])⟩]

/-- C9: on a single-node ring the claim requires a length-1 preference
list for either value of merge_nodes, but preference_list raises
TypeError: _convert_hashring_nodes constructs
ServiceHashringNode(token=..., data=...) without the required
service_info argument of the ServiceHashringNode in hashring/base.py
(whose instances also lack the service_key/hostname attributes the
deduplication loop reads). -/
theorem c9_preference_list_single_node_type_error :
    zsh_preference_list (fun _ => 0) c9_ring (some "0") true = .error .typeError
    ∧ zsh_preference_list (fun _ => 0) c9_ring (some "0") false = .error .typeError := by
  exact ⟨rfl, rfl⟩

/-! ## Claim C10 -/

/-- C10: constructing a ZookeeperServiceHashring always raises
TypeError: the super().__init__ call forwards the service_port keyword,
which ServiceHashring.__init__ (service_name, service, positions,
position_data) does not accept, and keyword binding fails before any
instance state is assigned, so no hashring operation is reachable
through normal construction. -/
theorem c10_zookeeper_hashring_init_type_error :
    ∀ (service_name : String) (service_port : Option Int)
      (positions : Option (List Nat)) (position_data : Option Json),
      zookeeper_service_hashring_init service_name service_port positions position_data
        = .error .typeError := by
  intro sn sp pos pd
  rfl

/-! ## Claim C2 -/

/-- Helper: a successful try block returns exactly the forwarded
call's result. -/
theorem wrapper_try_ok_callRes (env : CallEnv) (v : Nat)
    (h : wrapper_try env = .ok v) : env.callRes = .ok v := by
  unfold wrapper_try at h
  cases hp : env.isOpenPre with
  | error e => rw [hp] at h; exact absurd h (by simp)
  | ok o =>
      rw [hp] at h
      cases o with
      | true => simpa using h
      | false =>
          simp only [Bool.false_eq_true, if_false] at h
          cases ho : env.openRes with
          | error e => rw [ho] at h; exact absurd h (by simp)
          | ok u => rw [ho] at h; exact h

/-- A call during which the forwarded method raises the transport's
native exception (code 7) and the close() issued by the finally clause
raises another native exception (code 9). -/
def c2_failing_env : CallEnv :=
  ⟨.ok true, .ok (), .error (.native 7), .ok true, .error (.native 9)⟩

/-- C2 counterexample: with keepalive off, a transport-level failure
during the forwarded call does not surface as
ServiceProxyException("service unavailable") when the close() in the
finally clause also fails: the exception raised inside the finally
clause replaces the pending ServiceProxyException, so the caller sees
the transport's native exception. -/
theorem c2_native_exception_reaches_caller :
    c2_failing_env.callRes = .error (.native 7)
    ∧ service_method_wrapper false c2_failing_env = .error (.native 9) := by
  exact ⟨rfl, rfl⟩

/-- C2 (amended): when no service instance is bound (active and staged
slots both empty) any proxied call raises
ServiceProxyException("service unavailable") immediately, with no
transport operation involved; and provided the finally-clause cleanup
(isOpen/close with keepalive off) does not itself raise, a wrapped call
either returns the forwarded call's result or raises the uniform
ServiceProxyException — the transport's native exception is not
propagated.  If the cleanup raises, its exception reaches the caller
(see the counterexample). -/
theorem c2_uniform_service_unavailable :
    ∀ (st : ProxyState) (keepalive : Bool) (env : CallEnv),
      (st.service = none → st.staged_service = none →
        proxy_getattr_gate st = (st, .error (.serviceProxy "service unavailable")))
      ∧ (wrapper_finally keepalive env = .ok () →
          service_method_wrapper keepalive env
              = .error (.serviceProxy "service unavailable")
          ∨ ∃ v, service_method_wrapper keepalive env = .ok v
              ∧ env.callRes = .ok v) := by
  intro st keepalive env
  constructor
  · intro h1 h2
    simp [proxy_getattr_gate, proxy_swap, h1, h2]
  · intro hfin
    unfold service_method_wrapper
    rw [hfin]
    unfold wrapper_except
    cases hc : wrapper_try env with
    | ok v => exact Or.inr ⟨v, rfl, wrapper_try_ok_callRes env v hc⟩
    | error e => exact Or.inl rfl

/-- Environment in which every transport primitive succeeds. -/
def c2_ok_env : CallEnv := ⟨.ok true, .ok (), .ok 3, .ok false, .ok ()⟩

/-- Proxy state with no active and no staged service. -/
def c2_empty_state : ProxyState := ⟨none, none, none, none, none, none⟩

/-- Witness for the amended C2 theorem at concrete inputs. -/
theorem c2_uniform_service_unavailable_witness :
    proxy_getattr_gate c2_empty_state
        = (c2_empty_state, .error (.serviceProxy "service unavailable"))
    ∧ (service_method_wrapper true c2_ok_env
          = .error (.serviceProxy "service unavailable")
       ∨ ∃ v, service_method_wrapper true c2_ok_env = .ok v
            ∧ c2_ok_env.callRes = .ok v) := by
  have h := c2_uniform_service_unavailable c2_empty_state true c2_ok_env
  exact ⟨h.1 rfl rfl, h.2 rfl⟩

/-! ## Claim C3 -/

/-- C3: the registry-watch callback leaves all three active slots
untouched and either leaves the state unchanged or writes exactly the
freshly resolved triple into the three staged slots; the swap at the
start of the next attribute access, when a staged service is present,
moves all three staged slots into the active slots and resets every
staged slot to None. -/
theorem c3_staged_active_handoff :
    ∀ (st : ProxyState) (children : List String) (fresh : FreshService),
      ((proxy_watch st children fresh).service = st.service
       ∧ (proxy_watch st children fresh).service_node = st.service_node
       ∧ (proxy_watch st children fresh).service_transport = st.service_transport)
      ∧ (proxy_watch st children fresh = st
         ∨ ((proxy_watch st children fresh).staged_service = fresh.service
            ∧ (proxy_watch st children fresh).staged_service_node = fresh.node
            ∧ (proxy_watch st children fresh).staged_service_transport = fresh.transport))
      ∧ (∀ s, st.staged_service = some s →
            proxy_swap st = { service := st.staged_service,
                              service_node := st.staged_service_node,
                              service_transport := st.staged_service_transport,
                              staged_service := none,
                              staged_service_node := none,
                              staged_service_transport := none }) := by
  intro st children fresh
  refine ⟨?_, ?_, ?_⟩
  · unfold proxy_watch
    split <;> simp
  · unfold proxy_watch
    split
    · exact Or.inr ⟨rfl, rfl, rfl⟩
    · exact Or.inl rfl
  · intro s hs
    simp [proxy_swap, hs]

/-- A proxy state with both an active and a staged service bound. -/
def c3_state : ProxyState := ⟨some 1, some "chatsvc_00000001", some 2,
                              some 3, some "chatsvc_00000002", some 4⟩

/-- Witness for C3 at a concrete state: the staged triple moves into
the active slots and the staged slots are cleared. -/
theorem c3_staged_active_handoff_witness :
    proxy_swap c3_state = ⟨some 3, some "chatsvc_00000002", some 4, none, none, none⟩ := by
  have h := (c3_staged_active_handoff c3_state [] ⟨none, none, none⟩).2.2 3 rfl
  exact h

/-! ## Claim C4 -/

/-- Helper: _register never touches the registration queue. -/
theorem registrar_register_queue (r : Registrar) (svc : ServiceInfo) (r2 : Registrar)
    (h : registrar_register r svc = .ok r2) : r2.queue = r.queue := by
  unfold registrar_register at h
  split at h
  · exact absurd h (by simp)
  · split at h
    · cases h
      rfl
    · cases h
      rfl
    · exact absurd h (by simp)

/-- Helper: the drain retries, in order, exactly the entries it was
started with. -/
theorem drain_registration_queue_log (l : List ServiceInfo) (r : Registrar) :
    (drain_registration_queue l r).2 = l := by
  induction l generalizing r with
  | nil => rfl
  | cons svc rest ih =>
      simp [drain_registration_queue, ih]

/-- Helper: the drain never re-queues an entry. -/
theorem drain_registration_queue_queue (l : List ServiceInfo) (r : Registrar) :
    (drain_registration_queue l r).1.queue = r.queue := by
  induction l generalizing r with
  | nil => rfl
  | cons svc rest ih =>
      unfold drain_registration_queue
      rw [ih]
      cases hreg : registrar_register r svc with
      | ok rr => exact registrar_register_queue r svc rr hreg
      | error e => rfl

/-- C4: on a CONNECTED session event every queued entry is dequeued and
retried exactly once (the retry log equals the prior queue, in order)
and the queue ends empty, so an entry whose retry raises is dropped and
never re-queued; on session expiry every service in registered_services
is appended to the queue; the remaining session states leave the
registrar untouched. -/
theorem c4_session_observer_protocol :
    ∀ r : Registrar,
      ((session_observer r .connectedState).2 = r.queue
       ∧ (session_observer r .connectedState).1.queue = [])
      ∧ session_observer r .expiredSessionState
          = ({ r with queue := r.queue ++ r.registered.map (fun kv => kv.2) }, [])
      ∧ session_observer r .connectingState = (r, [])
      ∧ session_observer r .associatingState = (r, [])
      ∧ session_observer r .authFailedState = (r, []) := by
  intro r
  refine ⟨⟨?_, ?_⟩, rfl, rfl, rfl, rfl⟩
  · exact drain_registration_queue_log r.queue { r with queue := [] }
  · exact drain_registration_queue_queue r.queue { r with queue := [] }

/-! ## Claim C6 -/

/-- C6: register_service returns True exactly when immediate
registration succeeds (including the already-registered NodeExists
case, absorbed inside _register); on any failure — client not
connected, network error — no exception escapes (the embedding is a
total function): the service is appended to the registration queue and
False is returned. -/
theorem c6_register_service_defers_on_failure :
    ∀ (r : Registrar) (svc : ServiceInfo),
      (r.client.connected = false →
        (register_service r svc).1 = false
        ∧ (register_service r svc).2.queue = r.queue ++ [svc]
        ∧ (register_service r svc).2.client = r.client)
      ∧ (r.client.connected = true → r.client.netfail = true →
        (register_service r svc).1 = false
        ∧ (register_service r svc).2.queue = r.queue ++ [svc])
      ∧ (∀ r2, registrar_register r svc = .ok r2 →
          register_service r svc = (true, r2) ∧ r2.queue = r.queue)
      ∧ (∀ e, registrar_register r svc = .error e →
          (register_service r svc).1 = false
          ∧ (register_service r svc).2.queue = r.queue ++ [svc]) := by
  intro r svc
  refine ⟨?_, ?_, ?_, ?_⟩
  · intro hconn
    simp [register_service, registrar_register, hconn]
  · intro hconn hnet
    simp [register_service, registrar_register, hconn, zk_create_path, hnet]
  · intro r2 h
    refine ⟨?_, registrar_register_queue r svc r2 h⟩
    simp [register_service, h]
  · intro e h
    simp [register_service, h]

/-- Disconnected registrar with an empty queue. -/
def c6_registrar : Registrar := ⟨⟨false, false, []⟩, [], []⟩

/-- A concrete service (its info()): one thrift/tcp endpoint. -/
def c6_info : ServiceInfo :=
  ⟨"chatsvc", "1.0", "42", "host1", "host1.example.com", "key1",
   [⟨"chatsvc-thrift", [⟨"host1", 9090, "thrift", "tcp"⟩]⟩]⟩

/-- Witness for C6: registering against a disconnected client returns
False and defers the registration onto the queue. -/
theorem c6_register_service_defers_on_failure_witness :
    (register_service c6_registrar c6_info).1 = false
    ∧ (register_service c6_registrar c6_info).2.queue = [c6_info] := by
  have h := (c6_register_service_defers_on_failure c6_registrar c6_info).1 rfl
  exact ⟨h.1, h.2.1⟩

/-! ## Claim C7 -/

/-- Connected registrar with an empty node store. -/
def c7_r0 : Registrar := ⟨⟨true, false, []⟩, [], []⟩

/-- The service instance (its info()) being registered. -/
def c7_info : ServiceInfo :=
  ⟨"chatsvc", "1.0", "42", "host1", "host1.example.com", "key1",
   [⟨"chatsvc-thrift", [⟨"host1", 9090, "thrift", "tcp"⟩]⟩]⟩

/-- State after the first register_service call. -/
def c7_r1 : Registrar := (register_service c7_r0 c7_info).2

/-- State after registering the same instance a second time. -/
def c7_r2 : Registrar := (register_service c7_r1 c7_info).2

/-- The unregister_service call on the doubly-registered state. -/
def c7_unreg : Bool × Registrar := unregister_service c7_r2 c7_info

/-- C7 evaluation at the failing input: registering the same instance
twice yields exactly one visible registration (both calls return True
and find_services has length 1), and a subsequent locate_service
returns None after unregistration — but unregister_service returns
False on the successful delete (the node is removed from the store,
and zk_delete raised nothing), because the source only assigns
`result = True` in the NoNodeException branch; the claim says it
returns true both when it deletes the node and when the node is
absent. -/
theorem c7_unregister_returns_false_on_successful_delete :
    (register_service c7_r0 c7_info).1 = true
    ∧ (register_service c7_r1 c7_info).1 = true
    ∧ find_services c7_r2 "chatsvc" = [c7_info]
    ∧ c7_unreg.1 = false
    ∧ c7_unreg.2.client.nodes = []
    ∧ locate_service c7_unreg.2 "host1" "chatsvc" true 0 0 = none := by
  exact ⟨rfl, rfl, rfl, rfl, rfl, rfl⟩

/-! ## Claim C5 -/

/-- A registration living on a different host than the locating
process. -/
def c5_info : ServiceInfo :=
  ⟨"chatsvc", "1.0", "42", "otherhost", "otherhost.example.com", "key1",
   [⟨"chatsvc-thrift", [⟨"otherhost", 9090, "thrift", "tcp"⟩]⟩]⟩

/-- Registry node path of that registration. -/
def c5_path : ZkPath := ["services", "chatsvc", "registry", "chatsvc_key1"]

/-- Registrar whose store holds exactly that registration. -/
def c5_reg : Registrar :=
  ⟨⟨true, false, [(c5_path, .jstr c5_info.to_json)]⟩, [], []⟩

/-- C5 evaluation at the failing input (one live registration on
"otherhost", local hostname "localhost", host_affinity true):
locate_service and zoo.py's locate_zookeeper_service both fall back to
the full registration list and return the registration (paired with
its node path in the latter), as the claim states; but the
locate_zookeeper_service of registrar/zookeeper.py returns
(None, None) although a registration exists, because its fallback is
guarded by `result is None` while `result` is the tuple (None, None),
so the guard never fires. -/
theorem c5_zookeeper_locate_variant_diverges :
    locate_service c5_reg "localhost" "chatsvc" true 0 0 = some c5_info
    ∧ zoo_locate_zookeeper_service c5_reg "localhost" "chatsvc" true 0 0
        = (some c5_path, some c5_info)
    ∧ zkv_locate_zookeeper_service c5_reg.client "localhost" "chatsvc" true 0
        = .tup none none := by
  exact ⟨rfl, rfl, rfl⟩
